import Mathlib

/-!
Verification of the GisoInvest auth backend against its design notes.

The Python sources are shallowly embedded: SQLAlchemy rows become Lean
structures, UTC datetimes become `Int` seconds since the epoch, nullable
columns become `Option`, and each handler or model method becomes a pure
Lean function over that state.  `datetime.timedelta.days` floors toward
negative infinity, so it is `Int.fdiv · 86400`; Python's `int()` on a
float truncates toward zero, so `int(total_seconds/3600)` is
`Int.div · 3600`.
-/

namespace GisoInvest

/-- The columns of the `User` model in `src/models/user.py` that the
trial/subscription logic reads or writes. -/
structure UserState where
  id : Nat
  username : String
  email : String
  trialStartDate : Option Int
  trialEndDate : Option Int
  trialDaysUsed : Int
  trialStatusStr : String
  trialActive : Bool
  subscriptionPlan : String
  subscriptionStatus : String
  plan : String
  subscriptionStartDate : Option Int
  lastPaymentDate : Option Int
  nextBillingDate : Option Int
  paymentRequired : Bool
  stripeCustomerId : Option String
  stripePaymentIntentId : Option String
  lastTrialCheck : Option Int
  deriving Repr, DecidableEq

/-- The dictionary returned by `User.calculate_trial_status`.
`trialEndDate` is `none` in the no-trial branch and otherwise the
timestamp whose `isoformat()` the Python code returns. -/
structure TrialStatus where
  isOnTrial : Bool
  isExpired : Bool
  daysRemaining : Int
  hoursRemaining : Int
  trialEndDate : Option Int
  canAccess : Bool
  paymentRequired : Bool
  hasPaidSubscription : Bool
  deriving Repr, DecidableEq

/-- `User.calculate_trial_status` (src/models/user.py lines 72-114),
as a function of the row and the current time `now`
(`datetime.utcnow()`).  `trial_end = self.trial_end_date or
(self.trial_start_date + timedelta(days=7))`: a datetime is falsy only
when it is `None`, hence `Option.getD`. -/
def calculateTrialStatus (u : UserState) (now : Int) : TrialStatus :=
  match u.trialStartDate with
  | none =>
      { isOnTrial := false
        isExpired := true
        daysRemaining := 0
        hoursRemaining := 0
        trialEndDate := none
        canAccess := false
        paymentRequired := true
        hasPaidSubscription := false }
  | some start =>
      let trialEnd := u.trialEndDate.getD (start + 7 * 86400)
      let timeRemaining := trialEnd - now
      let daysRemaining := max 0 (Int.fdiv timeRemaining 86400)
      let hoursRemaining := max 0 (Int.tdiv timeRemaining 3600)
      let isExpired := decide (timeRemaining ≤ 0)
      let hasPaidSubscription :=
        u.subscriptionStatus == "active" &&
          !(u.subscriptionPlan == "trial" || u.subscriptionPlan == "free")
      let isOnTrial := !isExpired && u.trialActive
      let canAccess := isOnTrial || hasPaidSubscription
      let paymentRequired := isExpired && !hasPaidSubscription
      { isOnTrial := isOnTrial
        isExpired := isExpired
        daysRemaining := daysRemaining
        hoursRemaining := hoursRemaining
        trialEndDate := some trialEnd
        canAccess := canAccess
        paymentRequired := paymentRequired
        hasPaidSubscription := hasPaidSubscription }

/-- `User.update_trial_status` (src/models/user.py lines 116-133): the
mutated row together with the returned status dictionary. -/
def updateTrialStatus (u : UserState) (now : Int) : UserState × TrialStatus :=
  let trialStatus := calculateTrialStatus u now
  let u1 := { u with
    trialDaysUsed := 7 - trialStatus.daysRemaining
    paymentRequired := trialStatus.paymentRequired
    lastTrialCheck := some now }
  let u2 :=
    if trialStatus.isExpired && !trialStatus.hasPaidSubscription then
      { u1 with
        subscriptionStatus := "trial_expired"
        trialActive := false
        trialStatusStr := "expired" }
    else if trialStatus.isOnTrial then
      { u1 with
        subscriptionStatus := "trial_active"
        trialStatusStr := "active" }
    else u1
  (u2, trialStatus)

/-- The `payment_data` dictionary `User.start_subscription` may receive. -/
structure PaymentData where
  customerId : Option String
  paymentIntentId : Option String
  deriving Repr, DecidableEq

/-- `User.start_subscription` (src/models/user.py lines 140-153). -/
def startSubscription (u : UserState) (planId : String)
    (paymentData : Option PaymentData) (now : Int) : UserState :=
  let u1 := { u with
    subscriptionStatus := "active"
    subscriptionPlan := planId
    plan := planId
    trialActive := false
    paymentRequired := false
    subscriptionStartDate := some now
    lastPaymentDate := some now
    nextBillingDate := some (now + 30 * 86400) }
  match paymentData with
  | some pd =>
      { u1 with
        stripeCustomerId := pd.customerId
        stripePaymentIntentId := pd.paymentIntentId }
  | none => u1

/-- `User.cancel_subscription` (src/models/user.py lines 155-161). -/
def cancelSubscription (u : UserState) : UserState :=
  { u with
    subscriptionStatus := "cancelled"
    subscriptionPlan := "free"
    plan := "free"
    paymentRequired := false
    trialActive := false }

/-- The paid-subscription test of `calculate_trial_status`, on the raw
row fields: `subscription_status == 'active' and subscription_plan not
in ['trial', 'free']`. -/
def hasPaidSub (u : UserState) : Bool :=
  u.subscriptionStatus == "active" &&
    !(u.subscriptionPlan == "trial" || u.subscriptionPlan == "free")

/-- Whether the trial window is over at `now` in the sense of
`calculate_trial_status` (no trial start counts as expired, matching
its first branch). -/
def trialExpiredAt (u : UserState) (now : Int) : Bool :=
  match u.trialStartDate with
  | none => true
  | some start => decide (u.trialEndDate.getD (start + 7 * 86400) - now ≤ 0)

/-- The account invariant of the design notes, on the stored field:
`payment_required` is set exactly when the trial has expired and no
active paid subscription exists. -/
def paymentInvariant (u : UserState) (now : Int) : Prop :=
  u.paymentRequired = (trialExpiredAt u now && !hasPaidSub u)

/-- A user row with every field defaulted, for concrete evaluations. -/
def baseUser : UserState :=
  { id := 1
    username := "alice"
    email := "a@x.com"
    trialStartDate := some 0
    trialEndDate := some 604800
    trialDaysUsed := 0
    trialStatusStr := "active"
    trialActive := true
    subscriptionPlan := "trial"
    subscriptionStatus := "trial_active"
    plan := "trial"
    subscriptionStartDate := none
    lastPaymentDate := none
    nextBillingDate := none
    paymentRequired := false
    stripeCustomerId := none
    stripePaymentIntentId := none
    lastTrialCheck := none }

end GisoInvest

namespace GisoInvest

/-- Clamped at 0, truncating division and flooring division agree. -/
theorem max_zero_tdiv_eq_fdiv (t b : Int) (hb : 0 < b) :
    max 0 (Int.tdiv t b) = max 0 (Int.fdiv t b) := by
  rcases le_or_lt 0 t with ht | ht
  · rw [Int.fdiv_eq_tdiv ht hb.le]
  · have h1 : Int.tdiv t b ≤ 0 := by
      have := Int.tdiv_nonneg (a := -t) (b := b) (by omega) hb.le
      rw [Int.neg_tdiv] at this
      omega
    have h2 : Int.fdiv t b < 0 := Int.fdiv_neg' ht hb
    omega

/-- C1 (amended): for a user with a trial start date,
`calculate_trial_status` computes expiry inclusively: `is_expired` is
true exactly when `now >= trial_end` (`time_remaining.total_seconds() <= 0`),
so for all `now < trial_end` it reports `is_expired = false`;
`days_remaining = max(0, floor((trial_end - now) in days))` and
`hours_remaining = max(0, floor((trial_end - now) in hours))` are both
clamped at 0 and never negative. -/
theorem claim_C1 (u : UserState) (now start : Int)
    (h : u.trialStartDate = some start) :
    ((calculateTrialStatus u now).isExpired = true ↔
        u.trialEndDate.getD (start + 7 * 86400) ≤ now) ∧
    (calculateTrialStatus u now).daysRemaining =
      max 0 (Int.fdiv (u.trialEndDate.getD (start + 7 * 86400) - now) 86400) ∧
    (calculateTrialStatus u now).hoursRemaining =
      max 0 (Int.fdiv (u.trialEndDate.getD (start + 7 * 86400) - now) 3600) ∧
    0 ≤ (calculateTrialStatus u now).daysRemaining ∧
    0 ≤ (calculateTrialStatus u now).hoursRemaining ∧
    (now < u.trialEndDate.getD (start + 7 * 86400) →
      (calculateTrialStatus u now).isExpired = false) := by
  simp only [calculateTrialStatus, h]
  refine ⟨?_, ?_, ?_, ?_, ?_, ?_⟩
  · simp only [decide_eq_true_eq]
    omega
  · trivial
  · exact max_zero_tdiv_eq_fdiv _ 3600 (by norm_num)
  · exact le_max_left 0 _
  · exact le_max_left 0 _
  · intro hlt
    simp only [decide_eq_false_iff_not]
    omega

/-- C1 witness: the amended theorem applied to a fresh 7-day trial user
queried at its start. -/
theorem claim_C1_witness : (calculateTrialStatus baseUser 0).isExpired = false :=
  (claim_C1 baseUser 0 0 rfl).2.2.2.2.2 (by decide)

/-- C1 counterexample: at `now = trial_end` exactly, the code reports
`is_expired = true` although `now > trial_end` is false, contradicting the
claim that expiry is strict and that all `now <= trial_end` report
`is_expired = false`. -/
theorem claim_C1_counterexample :
    (calculateTrialStatus baseUser 604800).isExpired = true ∧
    ¬ ((604800 : Int) > 604800) := by
  exact ⟨by decide, by omega⟩

/-- C10: for a user whose `trial_start_date` is `None`,
`calculate_trial_status` returns the locked-out default dictionary:
not on trial, expired, zero days and hours remaining, no trial end
date, no access, payment required, no paid subscription. -/
theorem claim_C10 (u : UserState) (now : Int) (h : u.trialStartDate = none) :
    calculateTrialStatus u now =
      { isOnTrial := false
        isExpired := true
        daysRemaining := 0
        hoursRemaining := 0
        trialEndDate := none
        canAccess := false
        paymentRequired := true
        hasPaidSubscription := false } := by
  unfold calculateTrialStatus
  rw [h]

/-- C10 witness: the theorem applied to a concrete user with no trial
start date. -/
theorem claim_C10_witness :
    calculateTrialStatus { baseUser with trialStartDate := none } 5 =
      { isOnTrial := false
        isExpired := true
        daysRemaining := 0
        hoursRemaining := 0
        trialEndDate := none
        canAccess := false
        paymentRequired := true
        hasPaidSubscription := false } :=
  claim_C10 { baseUser with trialStartDate := none } 5 rfl

/-- The status dictionary's `is_expired` agrees with `trialExpiredAt`
on the raw row, in both branches of `calculate_trial_status`. -/
theorem calculateTrialStatus_isExpired (u : UserState) (now : Int) :
    (calculateTrialStatus u now).isExpired = trialExpiredAt u now := by
  unfold calculateTrialStatus trialExpiredAt
  cases u.trialStartDate <;> rfl

/-- When a trial start date exists, the status dictionary's
`has_paid_subscription` agrees with `hasPaidSub` on the raw row. -/
theorem calculateTrialStatus_hasPaid (u : UserState) (now start : Int)
    (h : u.trialStartDate = some start) :
    (calculateTrialStatus u now).hasPaidSubscription = hasPaidSub u := by
  unfold calculateTrialStatus hasPaidSub
  rw [h]

/-- `payment_required` in the status dictionary is definitionally
`is_expired and not has_paid_subscription`, in both branches. -/
theorem calculateTrialStatus_paymentRequired (u : UserState) (now : Int) :
    (calculateTrialStatus u now).paymentRequired =
      ((calculateTrialStatus u now).isExpired &&
        !(calculateTrialStatus u now).hasPaidSubscription) := by
  unfold calculateTrialStatus
  cases u.trialStartDate <;> rfl

/-- `can_access` in the status dictionary is definitionally
`is_on_trial or has_paid_subscription`, in both branches. -/
theorem calculateTrialStatus_canAccess (u : UserState) (now : Int) :
    (calculateTrialStatus u now).canAccess =
      ((calculateTrialStatus u now).isOnTrial ||
        (calculateTrialStatus u now).hasPaidSubscription) := by
  unfold calculateTrialStatus
  cases u.trialStartDate <;> rfl

/-- `is_on_trial` in the status dictionary is
`not is_expired and trial_active`, in both branches. -/
theorem calculateTrialStatus_isOnTrial (u : UserState) (now : Int) :
    (calculateTrialStatus u now).isOnTrial =
      (!(calculateTrialStatus u now).isExpired && u.trialActive) := by
  unfold calculateTrialStatus
  cases u.trialStartDate <;> rfl

/-- A paid professional subscriber whose 7-day trial window ended at
time 100. -/
def paidUser : UserState :=
  { baseUser with
    trialEndDate := some 100
    trialActive := false
    subscriptionPlan := "professional"
    subscriptionStatus := "active"
    plan := "professional" }

/-- C2 counterexample: `cancel_subscription` does not preserve the
invariant.  At `now = 200` the paid user's trial has expired and the
invariant holds (`payment_required = false` because an active paid
subscription exists), but after `cancel_subscription` the trial is
still expired, no active paid subscription exists, and the stored
`payment_required` is still `false`. -/
theorem claim_C2_counterexample :
    paymentInvariant paidUser 200 ∧
    ¬ paymentInvariant (cancelSubscription paidUser) 200 := by
  unfold paymentInvariant
  constructor <;> decide

/-- C2 (amended): the computed status always satisfies
`payment_required = is_expired and not has_paid_subscription`;
`update_trial_status` establishes the stored-field invariant for every
account with a trial start date; for all `now > trial_end` with no
active paid plan the computed status has `payment_required = true` and
`can_access = false`; and `start_subscription` with a paid plan
(not `trial`/`free`) preserves the invariant.  `cancel_subscription`,
however, clears `payment_required` unconditionally and so violates the
invariant when the trial has expired (see the counterexample). -/
theorem claim_C2 :
    (∀ (u : UserState) (now : Int),
        (calculateTrialStatus u now).paymentRequired =
          ((calculateTrialStatus u now).isExpired &&
            !(calculateTrialStatus u now).hasPaidSubscription)) ∧
    (∀ (u : UserState) (now start : Int), u.trialStartDate = some start →
        paymentInvariant (updateTrialStatus u now).1 now) ∧
    (∀ (u : UserState) (now start : Int), u.trialStartDate = some start →
        u.trialEndDate.getD (start + 7 * 86400) < now →
        hasPaidSub u = false →
        (calculateTrialStatus u now).paymentRequired = true ∧
        (calculateTrialStatus u now).canAccess = false) ∧
    (∀ (u : UserState) (planId : String) (pd : Option PaymentData) (now : Int),
        planId ≠ "trial" → planId ≠ "free" →
        paymentInvariant (startSubscription u planId pd now) now) := by
  refine ⟨fun u now => calculateTrialStatus_paymentRequired u now, ?_, ?_, ?_⟩
  · intro u now start h
    simp only [updateTrialStatus, paymentInvariant, trialExpiredAt, hasPaidSub,
      calculateTrialStatus, h]
    split
    · next hcond =>
      simp_all +decide
    · split
      · next hcond1 hcond2 =>
        simp_all +decide
      · next hcond1 hcond2 =>
        simp_all +decide
  · intro u now start h hlt hnopaid
    have hexp := calculateTrialStatus_isExpired u now
    have hpaid := calculateTrialStatus_hasPaid u now start h
    have hpr := calculateTrialStatus_paymentRequired u now
    have hca := calculateTrialStatus_canAccess u now
    have hot := calculateTrialStatus_isOnTrial u now
    have hexp' : trialExpiredAt u now = true := by
      unfold trialExpiredAt
      rw [h]
      simp only [decide_eq_true_eq]
      omega
    constructor
    · rw [hpr, hexp, hexp', hpaid, hnopaid]
      rfl
    · rw [hca, hot, hexp, hexp', hpaid, hnopaid]
      rfl
  · intro u planId pd now h1 h2
    have hb1 : (planId == "trial") = false := by
      simp [h1]
    have hb2 : (planId == "free") = false := by
      simp [h2]
    cases pd <;>
      simp [startSubscription, paymentInvariant, trialExpiredAt, hasPaidSub, hb1, hb2]

/-- The `valid_plans` list of the subscription routes. -/
def validPlans : List String := ["starter", "professional", "enterprise"]

/-- The `plan_hierarchy` dictionary of `upgrade_subscription`
(`{'starter': 1, 'professional': 2, 'enterprise': 3}`), looked up with
`dict.get(plan, 0)`. -/
def planHierarchy (plan : String) : Nat :=
  if plan == "starter" then 1
  else if plan == "professional" then 2
  else if plan == "enterprise" then 3
  else 0

/-- `upgrade_subscription` (src/routes/subscription.py lines 134-181)
after token authentication: the request body's `plan` value (`none`
when the key is absent) against the user's row.  Returns the row after
the handler and the HTTP status code.  `if not new_plan` is Python
falsiness, so an empty string is also rejected with 400. -/
def upgradeSubscription (u : UserState) (newPlan : Option String) :
    UserState × Nat :=
  match newPlan with
  | none => (u, 400)
  | some np =>
      if np = "" then (u, 400)
      else if np ∉ validPlans then (u, 400)
      else
        let currentLevel := planHierarchy u.subscriptionPlan
        let newLevel := planHierarchy np
        if newLevel ≤ currentLevel then (u, 400)
        else ({ u with subscriptionPlan := np }, 200)

/-- C6: for every current plan and requested valid plan, the upgrade
returns 200 and writes `subscription_plan := new_plan` exactly when the
requested plan's rank is strictly greater than the current plan's rank;
otherwise it returns 400 and leaves the row unchanged. -/
theorem claim_C6 (u : UserState) (np : String) (hv : np ∈ validPlans) :
    ((upgradeSubscription u (some np)).2 = 200 ↔
      planHierarchy u.subscriptionPlan < planHierarchy np) ∧
    ((upgradeSubscription u (some np)).2 = 200 →
      (upgradeSubscription u (some np)).1 = { u with subscriptionPlan := np }) ∧
    ((upgradeSubscription u (some np)).2 ≠ 200 →
      (upgradeSubscription u (some np)).2 = 400 ∧
      (upgradeSubscription u (some np)).1 = u) := by
  have hv' : np = "starter" ∨ np = "professional" ∨ np = "enterprise" := by
    simpa [validPlans] using hv
  have h1 : np ≠ "" := by
    rcases hv' with h | h | h <;> simp [h]
  have h2 : ¬ np ∉ validPlans := not_not_intro hv
  unfold upgradeSubscription
  dsimp only
  rw [if_neg h1, if_neg h2]
  by_cases hle : planHierarchy np ≤ planHierarchy u.subscriptionPlan
  · rw [if_pos hle]
    exact ⟨⟨fun h => absurd h (by norm_num), fun h => absurd h (by omega)⟩,
      fun h => absurd h (by norm_num), fun _ => ⟨rfl, rfl⟩⟩
  · rw [if_neg hle]
    exact ⟨⟨fun _ => by omega, fun _ => rfl⟩, fun _ => rfl,
      fun h => absurd rfl h⟩

/-- C6 witness: upgrading a trial user (rank 0) to `starter` (rank 1)
succeeds with 200. -/
theorem claim_C6_witness :
    (upgradeSubscription baseUser (some "starter")).2 = 200 :=
  (claim_C6 baseUser "starter" (by decide)).1.mpr (by decide)

/-- The decoded JWT payload: the claims `generate_jwt_token` writes and
`verify_jwt_token` reads.  `userId` is `none` when the `user_id` key is
absent from the payload. -/
structure JwtPayload where
  userId : Option Nat
  username : String
  email : String
  deriving Repr, DecidableEq

/-- Outcome of the external `jwt.decode` primitive for the process-wide
secret: a verified payload, or the `ExpiredSignatureError` /
`InvalidTokenError` exceptions it raises on expiry, signature mismatch
or malformed input. -/
inductive DecodeResult where
  | ok (payload : JwtPayload)
  | expiredSignature
  | invalidToken
  deriving Repr, DecidableEq

/-- The environment `verify_jwt_token` runs in: the JWT primitive and
the user table (`User.query.get`). -/
structure TokenEnv where
  decode : String → DecodeResult
  userById : Nat → Option UserState

/-- `User.verify_jwt_token` (src/models/user.py lines 185-201).
`if not user_id` is Python falsiness: an absent key or the id 0 both
yield `None`. -/
def verifyJwtToken (env : TokenEnv) (token : String) : Option UserState :=
  match env.decode token with
  | .expiredSignature => none
  | .invalidToken => none
  | .ok payload =>
      match payload.userId with
      | none => none
      | some uid => if uid = 0 then none else env.userById uid

/-- C7: token verification fails closed.  Whenever it returns an
account, the token decoded to a payload whose `user_id` names exactly
that account in the user table; any decode failure (signature mismatch,
malformed token, expiry) yields no account. -/
theorem claim_C7 (env : TokenEnv) (token : String) :
    (∀ u : UserState, verifyJwtToken env token = some u →
      ∃ payload uid, env.decode token = .ok payload ∧
        payload.userId = some uid ∧ env.userById uid = some u) ∧
    ((env.decode token = .expiredSignature ∨ env.decode token = .invalidToken) →
      verifyJwtToken env token = none) := by
  constructor
  · intro u hu
    unfold verifyJwtToken at hu
    split at hu
    · exact Option.noConfusion hu
    · exact Option.noConfusion hu
    · rename_i payload heq
      split at hu
      · exact Option.noConfusion hu
      · rename_i uid hid
        split at hu
        · exact Option.noConfusion hu
        · exact ⟨payload, uid, heq, hid, hu⟩
  · intro hfail
    unfold verifyJwtToken
    rcases hfail with hd | hd <;> rw [hd]

/-- A property entry inside a deal package: `roi` is `none` when the
`roi` key is absent, `some none` when the key is present but `None`. -/
structure DealProperty where
  roi : Option (Option Rat)
  deriving Repr, DecidableEq

/-- A deal package: `totalValue` and `properties` are `none` when the
key is absent (`pkg.get('totalValue', 0)` / `pkg.get('properties', [])`
supply the defaults). -/
structure DealPackage where
  totalValue : Option Rat
  properties : Option (List DealProperty)
  deriving Repr, DecidableEq

/-- The columns of the `Portfolio` model (src/models/data/portfolio.py)
that the stats logic reads or writes; `dealPackages` models the
`deal_packages_json` column through its JSON property. -/
structure PortfolioState where
  id : String
  userId : Nat
  name : String
  description : Option String
  totalValue : Rat
  totalProperties : Int
  avgRoi : Rat
  shareId : Option String
  isPublic : Bool
  dealPackages : List DealPackage
  deriving Repr, DecidableEq

/-- The `(total_roi, property_count)` accumulation loop of
`Portfolio.calculate_stats`. -/
def roiTotals (packages : List DealPackage) : Rat × Int :=
  packages.foldl
    (fun acc pkg =>
      (pkg.properties.getD []).foldl
        (fun acc2 pr =>
          match pr.roi with
          | some (some r) => (acc2.1 + r, acc2.2 + 1)
          | _ => acc2)
        acc)
    (0, 0)

/-- `Portfolio.calculate_stats` (src/models/data/portfolio.py lines
37-64): the derived `(total_value, total_properties, avg_roi)` as a
function of the deal packages alone. -/
def calculateStats (packages : List DealPackage) : Rat × Int × Rat :=
  if packages = [] then (0, 0, 0)
  else
    let totalValue := (packages.map (fun pkg => pkg.totalValue.getD 0)).sum
    let totalProperties :=
      (packages.map (fun pkg => ((pkg.properties.getD []).length : Int))).sum
    let totals := roiTotals packages
    let avgRoi := if 0 < totals.2 then totals.1 / (totals.2 : Rat) else 0
    (totalValue, totalProperties, avgRoi)

/-- `self.calculate_stats()` applied to a portfolio row: the three
derived columns are overwritten from the current deal packages. -/
def calculateStatsOn (p : PortfolioState) : PortfolioState :=
  let s := calculateStats p.dealPackages
  { p with totalValue := s.1, totalProperties := s.2.1, avgRoi := s.2.2 }

/-- The JSON body of `PUT /portfolios/<id>`: the fields the handler
reads, `none` when the key is absent. -/
structure PortfolioUpdate where
  name : Option String
  description : Option String
  isPublic : Option Bool
  dealPackages : Option (List DealPackage)
  deriving Repr, DecidableEq

/-- The field updates of `update_portfolio` (src/routes/portfolio.py
lines 120-140) on a found portfolio with a non-empty JSON body:
each present key is written, and a write to `deal_packages` is
immediately followed by `calculate_stats()`.  `freshShareId` stands for
the `uuid4` share id generated when the portfolio turns public. -/
def updatePortfolioFields (p : PortfolioState) (data : PortfolioUpdate)
    (freshShareId : String) : PortfolioState :=
  let p1 := match data.name with
    | some n => { p with name := n.trim }
    | none => p
  let p2 := match data.description with
    | some d => { p1 with description := some d.trim }
    | none => p1
  let p3 := match data.isPublic with
    | some b =>
        let q := { p2 with isPublic := b }
        if q.isPublic && q.shareId.isNone then { q with shareId := some freshShareId }
        else q
    | none => p2
  match data.dealPackages with
  | some pkgs => calculateStatsOn { p3 with dealPackages := pkgs }
  | none => p3

/-- C8: portfolio derived statistics are a pure function of the deal
packages, recomputed on every write to them.  On
`[{totalValue: 100, properties: [{roi: 5}, {roi: 15}]}]` the stats are
`total_value = 100`, `total_properties = 2`, `avg_roi = 10`; and
whenever `update_portfolio` receives a `deal_packages` key, the row it
produces carries exactly `calculate_stats` of the new packages. -/
theorem claim_C8 :
    calculateStats
        [{ totalValue := some 100
           properties := some [{ roi := some (some 5) }, { roi := some (some 15) }] }] =
      (100, 2, 10) ∧
    (∀ (p : PortfolioState) (data : PortfolioUpdate) (fresh : String)
        (pkgs : List DealPackage), data.dealPackages = some pkgs →
      ((updatePortfolioFields p data fresh).totalValue,
        (updatePortfolioFields p data fresh).totalProperties,
        (updatePortfolioFields p data fresh).avgRoi) = calculateStats pkgs ∧
      (updatePortfolioFields p data fresh).dealPackages = pkgs) := by
  constructor
  · unfold calculateStats roiTotals
    norm_num
  · intro p data fresh pkgs h
    unfold updatePortfolioFields
    rw [h]
    unfold calculateStatsOn
    constructor <;> rfl

/-- An optional ISO-timestamp field of an import payload, resolved as
`from_dict` does: `none` when the key is absent or falsy (the attribute
is left to its column default), `some none` when present but
unparsable (`fromisoformat` raises and the code falls back to
`utcnow`), `some (some t)` when it parses to `t`. -/
def parsedStamp (field : Option (Option Int)) (now : Int) : Option Int :=
  match field with
  | none => none
  | some none => some now
  | some (some t) => some t

/-- An import payload for a property: each key `none` when absent from
the client dictionary.  `details`/`analysis` carry the JSON text the
dump setter would store. -/
structure PropertyPayload where
  id : Option String
  userId : Option Nat
  address : Option String
  price : Option Rat
  monthlyRent : Option Rat
  bedrooms : Option Int
  bathrooms : Option Int
  propertyType : Option String
  strategy : Option String
  roi : Option Rat
  createdAt : Option (Option Int)
  updatedAt : Option (Option Int)
  details : Option String
  analysis : Option String
  deriving Repr, DecidableEq

/-- The columns of the `Property` model (src/models/data/property.py);
`none` models a null (or not-yet-defaulted) column. -/
structure PropertyRow where
  id : Option String
  userId : Option Nat
  address : Option String
  price : Option Rat
  monthlyRent : Option Rat
  bedrooms : Option Int
  bathrooms : Option Int
  propertyType : Option String
  strategy : Option String
  roi : Option Rat
  createdAt : Option Int
  updatedAt : Option Int
  detailsJson : Option String
  analysisJson : Option String
  deriving Repr, DecidableEq

/-- `Property.from_dict` (src/models/data/property.py lines 72-106) at
current time `now`. -/
def propertyFromDict (data : PropertyPayload) (now : Int) : PropertyRow :=
  { id := data.id
    userId := data.userId
    address := data.address
    price := data.price
    monthlyRent := data.monthlyRent
    bedrooms := data.bedrooms
    bathrooms := data.bathrooms
    propertyType := data.propertyType
    strategy := data.strategy
    roi := data.roi
    createdAt := parsedStamp data.createdAt now
    updatedAt := parsedStamp data.updatedAt now
    detailsJson := data.details
    analysisJson := data.analysis }

/-- `Property.query.filter_by(id=i, user_id=owner).first() is not None`
over the rows the session sees. -/
def propertyExists (rows : List PropertyRow) (i : String) (owner : Nat) : Bool :=
  rows.any fun r => r.id == some i && r.userId == some owner

/-- The import loop shared verbatim by `migrate_properties`
(src/routes/property.py lines 216-233) and the property section of
`migrate_all_data` (src/routes/data.py lines 32-50): fold over the
payloads carrying the session's pending inserts and the
imported/skipped counters.  `db` is the committed table; the existence
check sees `db` plus the pending inserts, since the ORM autoflushes
pending inserts before each query. -/
def migratePropertiesLoop (db : List PropertyRow) (owner : Nat) (now : Int) :
    List PropertyPayload → List PropertyRow → Nat → Nat →
      List PropertyRow × Nat × Nat
  | [], pending, imported, skipped => (pending, imported, skipped)
  | p :: ps, pending, imported, skipped =>
      match p.id, p.address with
      | some i, some _ =>
          if propertyExists (db ++ pending) i owner then
            migratePropertiesLoop db owner now ps pending imported (skipped + 1)
          else
            migratePropertiesLoop db owner now ps
              (pending ++ [{ propertyFromDict p now with userId := some owner }])
              (imported + 1) skipped
      | _, _ => migratePropertiesLoop db owner now ps pending imported (skipped + 1)

/-- `migrate_properties` (src/routes/property.py lines 196-246) on the
success path: the committed table after `db.session.commit()` together
with the returned `imported_count` and `skipped_count`. -/
def migrateProperties (db : List PropertyRow) (owner : Nat) (now : Int)
    (payloads : List PropertyPayload) : List PropertyRow × Nat × Nat :=
  let r := migratePropertiesLoop db owner now payloads [] 0 0
  (db ++ r.1, r.2.1, r.2.2)

/-- The existence check splits over an append of row lists. -/
theorem propertyExists_append (l1 l2 : List PropertyRow) (i : String)
    (o : Nat) :
    propertyExists (l1 ++ l2) i o =
      (propertyExists l1 i o || propertyExists l2 i o) := by
  unfold propertyExists
  exact List.any_append

/-- Over payloads that all carry `id` and `address`, whose ids are
pairwise distinct and none of which is visible for the owner, the loop
imports every payload in order and skips none. -/
theorem migratePropertiesLoop_fresh (db : List PropertyRow) (owner : Nat)
    (now : Int) :
    ∀ (ps : List PropertyPayload) (pending : List PropertyRow)
      (imported skipped : Nat),
      (∀ p ∈ ps, p.id.isSome ∧ p.address.isSome) →
      (∀ p ∈ ps, ∀ i, p.id = some i →
        propertyExists (db ++ pending) i owner = false) →
      (ps.map fun p => p.id).Nodup →
      migratePropertiesLoop db owner now ps pending imported skipped =
        (pending ++
            ps.map (fun p => { propertyFromDict p now with userId := some owner }),
          imported + ps.length, skipped)
  | [], pending, imported, skipped, _, _, _ => by
      simp [migratePropertiesLoop]
  | p :: ps, pending, imported, skipped, hvalid, hfresh, hnodup => by
      obtain ⟨hid, haddr⟩ := hvalid p (List.mem_cons_self p ps)
      obtain ⟨i, hi⟩ := Option.isSome_iff_exists.mp hid
      obtain ⟨a, ha⟩ := Option.isSome_iff_exists.mp haddr
      rw [List.map_cons] at hnodup
      obtain ⟨hnotmem, htail⟩ := List.nodup_cons.mp hnodup
      have hex : propertyExists (db ++ pending) i owner = false :=
        hfresh p (List.mem_cons_self p ps) i hi
      have htailfresh : ∀ q ∈ ps, ∀ j, q.id = some j →
          propertyExists
            (db ++ (pending ++
              [{ propertyFromDict p now with userId := some owner }])) j owner =
            false := by
        intro q hq j hj
        have hq1 : propertyExists (db ++ pending) j owner = false :=
          hfresh q (List.mem_cons_of_mem p hq) j hj
        have hij : some i ≠ (some j : Option String) := by
          intro hcontra
          apply hnotmem
          have : p.id = q.id := by rw [hi, hcontra, ← hj]
          rw [this]
          exact List.mem_map_of_mem _ hq
        rw [← List.append_assoc, propertyExists_append, hq1]
        simp [propertyExists, propertyFromDict, hi,
          beq_eq_false_iff_ne.mpr hij]
      have hrec := migratePropertiesLoop_fresh db owner now ps
        (pending ++ [{ propertyFromDict p now with userId := some owner }])
        (imported + 1) skipped
        (fun q hq => hvalid q (List.mem_cons_of_mem p hq)) htailfresh htail
      simp only [migratePropertiesLoop, hi, ha, hex, if_false, Bool.false_eq_true]
      rw [hrec, List.map_cons, List.length_cons, List.append_assoc,
        List.singleton_append,
        (by omega : imported + 1 + ps.length = imported + (ps.length + 1))]

/-- Over payloads that all carry `id` and `address` and whose ids are
all already visible for the owner in the committed table, the loop
skips every payload and imports none. -/
theorem migratePropertiesLoop_dup (db : List PropertyRow) (owner : Nat)
    (now : Int) :
    ∀ (ps : List PropertyPayload) (pending : List PropertyRow)
      (imported skipped : Nat),
      (∀ p ∈ ps, ∃ i, p.id = some i ∧ p.address.isSome ∧
        propertyExists db i owner = true) →
      migratePropertiesLoop db owner now ps pending imported skipped =
        (pending, imported, skipped + ps.length)
  | [], pending, imported, skipped, _ => by
      simp [migratePropertiesLoop]
  | p :: ps, pending, imported, skipped, hdup => by
      obtain ⟨i, hi, haddr, hex⟩ := hdup p (List.mem_cons_self p ps)
      obtain ⟨a, ha⟩ := Option.isSome_iff_exists.mp haddr
      have hex' : propertyExists (db ++ pending) i owner = true := by
        rw [propertyExists_append, hex, Bool.true_or]
      have hrec := migratePropertiesLoop_dup db owner now ps pending
        imported (skipped + 1) (fun q hq => hdup q (List.mem_cons_of_mem p hq))
      simp only [migratePropertiesLoop, hi, ha, hex', if_true]
      rw [hrec, List.length_cons,
        (by omega : skipped + 1 + ps.length = skipped + (ps.length + 1))]

/-- C3: the bulk property import is idempotent per owner.  For a batch
of payloads that all carry `id` and `address`, with pairwise-distinct
ids none of which exists for the owner, the first run imports all of
them and skips none, and the identical second run imports none, skips
all of them, and writes no new rows — because the existence check is
scoped to `(id, owner)`. -/
theorem claim_C3 (db : List PropertyRow) (owner : Nat) (now : Int)
    (ps : List PropertyPayload)
    (hvalid : ∀ p ∈ ps, p.id.isSome ∧ p.address.isSome)
    (hfresh : ∀ p ∈ ps, ∀ i, p.id = some i →
      propertyExists db i owner = false)
    (hnodup : (ps.map fun p => p.id).Nodup) :
    (migrateProperties db owner now ps).2.1 = ps.length ∧
    (migrateProperties db owner now ps).2.2 = 0 ∧
    (migrateProperties (migrateProperties db owner now ps).1 owner now ps).2.1 = 0 ∧
    (migrateProperties (migrateProperties db owner now ps).1 owner now ps).2.2 =
      ps.length ∧
    (migrateProperties (migrateProperties db owner now ps).1 owner now ps).1 =
      (migrateProperties db owner now ps).1 := by
  have hfirst := migratePropertiesLoop_fresh db owner now ps [] 0 0 hvalid
    (by simpa using hfresh) hnodup
  have hres1 : migrateProperties db owner now ps =
      (db ++ ps.map (fun p => { propertyFromDict p now with userId := some owner }),
        ps.length, 0) := by
    simp only [migrateProperties]
    rw [hfirst]
    simp
  have hdup : ∀ p ∈ ps, ∃ i, p.id = some i ∧ p.address.isSome ∧
      propertyExists
        (db ++ ps.map (fun p => { propertyFromDict p now with userId := some owner }))
        i owner = true := by
    intro p hp
    obtain ⟨hid, haddr⟩ := hvalid p hp
    obtain ⟨i, hi⟩ := Option.isSome_iff_exists.mp hid
    refine ⟨i, hi, haddr, ?_⟩
    rw [propertyExists_append]
    have : propertyExists
        (ps.map fun p => { propertyFromDict p now with userId := some owner })
        i owner = true := by
      unfold propertyExists
      refine List.any_eq_true.mpr ?_
      exact ⟨{ propertyFromDict p now with userId := some owner },
        List.mem_map_of_mem _ hp, by simp [propertyFromDict, hi]⟩
    rw [this, Bool.or_true]
  have hsecond := migratePropertiesLoop_dup
    (db ++ ps.map (fun p => { propertyFromDict p now with userId := some owner }))
    owner now ps [] 0 0 hdup
  have hres2 : migrateProperties
      (db ++ ps.map (fun p => { propertyFromDict p now with userId := some owner }))
      owner now ps =
      (db ++ ps.map (fun p => { propertyFromDict p now with userId := some owner }),
        0, ps.length) := by
    simp only [migrateProperties]
    rw [hsecond]
    simp
  rw [hres1]
  dsimp only
  rw [hres2]
  exact ⟨rfl, rfl, rfl, rfl, rfl⟩

/-- A minimal valid import payload carrying only `id` and `address`. -/
def mkPayload (i : String) : PropertyPayload :=
  { id := some i
    userId := none
    address := some "1 Main St"
    price := none
    monthlyRent := none
    bedrooms := none
    bathrooms := none
    propertyType := none
    strategy := none
    roi := none
    createdAt := none
    updatedAt := none
    details := none
    analysis := none }

/-- C3 witness: importing two fresh payloads into an empty table
imports both. -/
theorem claim_C3_witness :
    (migrateProperties [] 1 0 [mkPayload "a", mkPayload "b"]).2.1 = 2 :=
  (claim_C3 [] 1 0 [mkPayload "a", mkPayload "b"]
    (by decide) (fun _ _ _ _ => rfl) (by decide)).1

/-- Every row the loop accumulates beyond the given pending list is
bound to the authenticated owner. -/
theorem migratePropertiesLoop_owner (db : List PropertyRow) (owner : Nat)
    (now : Int) :
    ∀ (ps : List PropertyPayload) (pending : List PropertyRow)
      (imported skipped : Nat),
      ∀ r ∈ (migratePropertiesLoop db owner now ps pending imported skipped).1,
        r ∈ pending ∨ r.userId = some owner
  | [], pending, imported, skipped => by
      intro r hr
      simp only [migratePropertiesLoop] at hr
      exact Or.inl hr
  | p :: ps, pending, imported, skipped => by
      intro r hr
      cases hpid : p.id with
      | none =>
          simp only [migratePropertiesLoop, hpid] at hr
          exact migratePropertiesLoop_owner db owner now ps pending imported
            (skipped + 1) r hr
      | some i =>
          cases haddr : p.address with
          | none =>
              simp only [migratePropertiesLoop, hpid, haddr] at hr
              exact migratePropertiesLoop_owner db owner now ps pending imported
                (skipped + 1) r hr
          | some a =>
              simp only [migratePropertiesLoop, hpid, haddr] at hr
              by_cases hex : propertyExists (db ++ pending) i owner
              · rw [if_pos hex] at hr
                exact migratePropertiesLoop_owner db owner now ps pending imported
                  (skipped + 1) r hr
              · rw [if_neg hex] at hr
                rcases migratePropertiesLoop_owner db owner now ps
                    (pending ++ [{ propertyFromDict p now with userId := some owner }])
                    (imported + 1) skipped r hr with hmem | hown
                · rcases List.mem_append.mp hmem with h1 | h1
                  · exact Or.inl h1
                  · right
                    rw [List.mem_singleton.mp h1]
                · exact Or.inr hown

/-- The loop ignores the payloads' embedded `user_id`: rewriting it
arbitrarily changes nothing. -/
theorem migratePropertiesLoop_payloadOwner (db : List PropertyRow) (owner : Nat)
    (now : Int) (g : PropertyPayload → Option Nat) :
    ∀ (ps : List PropertyPayload) (pending : List PropertyRow)
      (imported skipped : Nat),
      migratePropertiesLoop db owner now
          (ps.map fun p => { p with userId := g p }) pending imported skipped =
        migratePropertiesLoop db owner now ps pending imported skipped
  | [], _, _, _ => rfl
  | p :: ps, pending, imported, skipped => by
      obtain ⟨pid, puid, paddr, pprice, pmrent, pbeds, pbaths, ptype, pstrat,
        proi, pcreated, pupdated, pdetails, panalysis⟩ := p
      simp only [List.map_cons, migratePropertiesLoop]
      cases pid with
      | none =>
          exact migratePropertiesLoop_payloadOwner db owner now g ps pending
            imported (skipped + 1)
      | some i =>
          cases paddr with
          | none =>
              exact migratePropertiesLoop_payloadOwner db owner now g ps pending
                imported (skipped + 1)
          | some a =>
              by_cases hex : propertyExists (db ++ pending) i owner
              · simp only [if_pos hex]
                exact migratePropertiesLoop_payloadOwner db owner now g ps pending
                  imported (skipped + 1)
              · simp only [if_neg hex]
                exact migratePropertiesLoop_payloadOwner db owner now g ps
                  _ (imported + 1) skipped

/-- C5: every row the property import persists is either a pre-existing
row or bound to the authenticated caller, and the outcome is
independent of any `user_id` embedded in the payloads: rewriting every
payload's `user_id` arbitrarily yields the identical table and counts
(the payload's owner id is never trusted). -/
theorem claim_C5 (db : List PropertyRow) (owner : Nat) (now : Int)
    (ps : List PropertyPayload) (g : PropertyPayload → Option Nat) :
    (∀ r ∈ (migrateProperties db owner now ps).1,
      r ∈ db ∨ r.userId = some owner) ∧
    migrateProperties db owner now (ps.map fun p => { p with userId := g p }) =
      migrateProperties db owner now ps := by
  constructor
  · intro r hr
    simp only [migrateProperties] at hr
    rcases List.mem_append.mp hr with h | h
    · exact Or.inl h
    · rcases migratePropertiesLoop_owner db owner now ps [] 0 0 r h with h1 | h1
      · exact absurd h1 (List.not_mem_nil r)
      · exact Or.inr h1
  · simp only [migrateProperties]
    rw [migratePropertiesLoop_payloadOwner]

/-- An import payload for a portfolio: each key `none` when absent. -/
structure PortfolioPayload where
  id : Option String
  userId : Option Nat
  name : Option String
  description : Option String
  shareId : Option String
  isPublic : Option Bool
  createdAt : Option (Option Int)
  updatedAt : Option (Option Int)
  dealPackages : Option (List DealPackage)
  deriving Repr, DecidableEq

/-- The columns of the `Portfolio` model as a freshly constructed row;
`dealPackages` models `deal_packages_json` through its JSON property
(`[]` when the column was never set). -/
structure PortfolioRow where
  id : Option String
  userId : Option Nat
  name : Option String
  description : Option String
  createdAt : Option Int
  updatedAt : Option Int
  totalValue : Rat
  totalProperties : Int
  avgRoi : Rat
  shareId : Option String
  isPublic : Bool
  dealPackages : List DealPackage
  deriving Repr, DecidableEq

/-- `Portfolio.from_dict` (src/models/data/portfolio.py lines 83-111):
constructs the row, optionally writes the timestamps and the deal
packages, then runs `calculate_stats()`. -/
def portfolioFromDict (data : PortfolioPayload) (now : Int) : PortfolioRow :=
  let p0 : PortfolioRow :=
    { id := data.id
      userId := data.userId
      name := data.name
      description := data.description
      createdAt := parsedStamp data.createdAt now
      updatedAt := parsedStamp data.updatedAt now
      totalValue := 0
      totalProperties := 0
      avgRoi := 0
      shareId := data.shareId
      isPublic := data.isPublic.getD false
      dealPackages := data.dealPackages.getD [] }
  let s := calculateStats p0.dealPackages
  { p0 with totalValue := s.1, totalProperties := s.2.1, avgRoi := s.2.2 }

/-- An import payload for a report; `properties` carries the entries
whose `roi` keys feed the stats setter. -/
structure ReportPayload where
  id : Option String
  userId : Option Nat
  title : Option String
  reportType : Option String
  generatedAt : Option (Option Int)
  content : Option String
  properties : Option (List DealProperty)
  deriving Repr, DecidableEq

/-- The columns of the `Report` model as a freshly constructed row. -/
structure ReportRow where
  id : Option String
  userId : Option Nat
  title : Option String
  generatedAt : Option Int
  reportType : String
  contentJson : Option String
  propertiesJson : Option (List DealProperty)
  propertyCount : Int
  avgRoi : Rat
  deriving Repr, DecidableEq

/-- The roi accumulation of the `Report.properties` setter
(src/models/data/report.py lines 43-58). -/
def reportRoiTotals (props : List DealProperty) : Rat × Int :=
  props.foldl
    (fun acc pr =>
      match pr.roi with
      | some (some r) => (acc.1 + r, acc.2 + 1)
      | _ => acc)
    (0, 0)

/-- `Report.from_dict` (src/models/data/report.py lines 74-96): the
`properties` setter also writes `property_count` and `avg_roi`. -/
def reportFromDict (data : ReportPayload) (now : Int) : ReportRow :=
  let r0 : ReportRow :=
    { id := data.id
      userId := data.userId
      title := data.title
      generatedAt := parsedStamp data.generatedAt now
      reportType := data.reportType.getD "investment_analysis"
      contentJson := data.content
      propertiesJson := none
      propertyCount := 0
      avgRoi := 0 }
  match data.properties with
  | some props =>
      let t := reportRoiTotals props
      { r0 with
        propertiesJson := some props
        propertyCount := props.length
        avgRoi := if 0 < t.2 then t.1 / (t.2 : Rat) else 0 }
  | none => r0

/-- `Portfolio.query.filter_by(id=i, user_id=owner).first() is not None`. -/
def portfolioExists (rows : List PortfolioRow) (i : String) (owner : Nat) : Bool :=
  rows.any fun r => r.id == some i && r.userId == some owner

/-- `Report.query.filter_by(id=i, user_id=owner).first() is not None`. -/
def reportExists (rows : List ReportRow) (i : String) (owner : Nat) : Bool :=
  rows.any fun r => r.id == some i && r.userId == some owner

/-- The portfolio section of `migrate_all_data` (src/routes/data.py
lines 52-71): skip on a missing `id` or `name` key, skip when the id
exists for the owner, otherwise add with the owner forced. -/
def migratePortfoliosLoop (db : List PortfolioRow) (owner : Nat) (now : Int) :
    List PortfolioPayload → List PortfolioRow → Nat → Nat →
      List PortfolioRow × Nat × Nat
  | [], pending, imported, skipped => (pending, imported, skipped)
  | p :: ps, pending, imported, skipped =>
      match p.id, p.name with
      | some i, some _ =>
          if portfolioExists (db ++ pending) i owner then
            migratePortfoliosLoop db owner now ps pending imported (skipped + 1)
          else
            migratePortfoliosLoop db owner now ps
              (pending ++ [{ portfolioFromDict p now with userId := some owner }])
              (imported + 1) skipped
      | _, _ => migratePortfoliosLoop db owner now ps pending imported (skipped + 1)

/-- The report section of `migrate_all_data` (src/routes/data.py lines
73-92): skip on a missing `id` or `title` key, skip when the id exists
for the owner, otherwise add with the owner forced. -/
def migrateReportsLoop (db : List ReportRow) (owner : Nat) (now : Int) :
    List ReportPayload → List ReportRow → Nat → Nat →
      List ReportRow × Nat × Nat
  | [], pending, imported, skipped => (pending, imported, skipped)
  | p :: ps, pending, imported, skipped =>
      match p.id, p.title with
      | some i, some _ =>
          if reportExists (db ++ pending) i owner then
            migrateReportsLoop db owner now ps pending imported (skipped + 1)
          else
            migrateReportsLoop db owner now ps
              (pending ++ [{ reportFromDict p now with userId := some owner }])
              (imported + 1) skipped
      | _, _ => migrateReportsLoop db owner now ps pending imported (skipped + 1)

/-- The three tables the data routes write. -/
structure Store where
  properties : List PropertyRow
  portfolios : List PortfolioRow
  reports : List ReportRow
  deriving Repr, DecidableEq

/-- The request body of `POST /data/migrate`: each key `none` when it
is absent or its value fails the `isinstance(..., list)` check. -/
structure MigrateData where
  properties : Option (List PropertyPayload)
  portfolios : Option (List PortfolioPayload)
  reports : Option (List ReportPayload)
  deriving Repr, DecidableEq

/-- One entity kind's tally in the `results` body. -/
structure MigrateCounts where
  imported : Nat
  skipped : Nat
  deriving Repr, DecidableEq

/-- The store after the single `db.session.commit()` of one
`POST /data/migrate` request: every accumulated insert of the three
sections, appended together. -/
def migrateAllInserts (st : Store) (owner : Nat) (now : Int)
    (d : MigrateData) : Store :=
  { properties := st.properties ++
      (match d.properties with
        | some ps => (migratePropertiesLoop st.properties owner now ps [] 0 0).1
        | none => [])
    portfolios := st.portfolios ++
      (match d.portfolios with
        | some ps => (migratePortfoliosLoop st.portfolios owner now ps [] 0 0).1
        | none => [])
    reports := st.reports ++
      (match d.reports with
        | some ps => (migrateReportsLoop st.reports owner now ps [] 0 0).1
        | none => []) }

/-- `migrate_all_data` (src/routes/data.py lines 12-104) after token
authentication.  `commitOk` is the outcome of the one
`db.session.commit()` at the end of the request: on `false` the
`except` clause rolls the session back — dropping every pending
insert — and returns 500 `{'error': ...}` with the store unchanged.
The result is the store, the HTTP status code, and the `results`
body when one is returned. -/
def migrateAllData (st : Store) (owner : Nat) (now : Int)
    (data : Option MigrateData) (commitOk : Bool) :
    Store × Nat × Option (MigrateCounts × MigrateCounts × MigrateCounts) :=
  match data with
  | none => (st, 400, none)
  | some d =>
      let pr := match d.properties with
        | some ps => migratePropertiesLoop st.properties owner now ps [] 0 0
        | none => ([], 0, 0)
      let pf := match d.portfolios with
        | some ps => migratePortfoliosLoop st.portfolios owner now ps [] 0 0
        | none => ([], 0, 0)
      let rp := match d.reports with
        | some ps => migrateReportsLoop st.reports owner now ps [] 0 0
        | none => ([], 0, 0)
      if commitOk then
        ({ properties := st.properties ++ pr.1
           portfolios := st.portfolios ++ pf.1
           reports := st.reports ++ rp.1 },
          200,
          some (⟨pr.2.1, pr.2.2⟩, ⟨pf.2.1, pf.2.2⟩, ⟨rp.2.1, rp.2.2⟩))
      else (st, 500, none)

/-- C4: each migrate request is atomic.  Either it answers 200 and the
store gains exactly the whole batch of inserts the request accumulated,
or it answers with an error (400 bad body / 500 failed commit), the
store is left unchanged and no results body is produced — a
partial import is never persisted. -/
theorem claim_C4 (st : Store) (owner : Nat) (now : Int)
    (data : Option MigrateData) (commitOk : Bool) :
    ((migrateAllData st owner now data commitOk).2.1 = 200 ∧
      ∃ d, data = some d ∧
        (migrateAllData st owner now data commitOk).1 =
          migrateAllInserts st owner now d) ∨
    ((migrateAllData st owner now data commitOk).2.1 ≠ 200 ∧
      (migrateAllData st owner now data commitOk).1 = st ∧
      (migrateAllData st owner now data commitOk).2.2 = none) := by
  cases data with
  | none =>
      right
      exact ⟨by simp [migrateAllData], rfl, rfl⟩
  | some d =>
      cases commitOk with
      | false =>
          right
          exact ⟨by simp [migrateAllData], rfl, rfl⟩
      | true =>
          left
          refine ⟨rfl, d, rfl, ?_⟩
          obtain ⟨dps, dpf, drp⟩ := d
          cases dps <;> cases dpf <;> cases drp <;> rfl

/-- The attribute names the `User` model of src/models/user.py defines
(its columns): reading any other attribute on a loaded row raises
`AttributeError`. -/
def userColumns : List String :=
  ["id", "username", "email", "password_hash", "session_token",
   "token_expires_at", "trial_start_date", "trial_end_date",
   "trial_days_used", "trial_status", "trial_active",
   "subscription_plan", "subscription_status", "plan",
   "subscription_start_date", "last_payment_date", "next_billing_date",
   "payment_required", "stripe_customer_id", "stripe_payment_intent_id",
   "created_at", "updated_at", "last_login", "last_trial_check"]

/-- The keys of the dictionary `calculate_trial_status` returns;
indexing it with any other key raises `KeyError`. -/
def trialStatusKeys : List String :=
  ["is_on_trial", "is_expired", "days_remaining", "hours_remaining",
   "trial_end_date", "can_access", "payment_required",
   "has_paid_subscription"]

/-- Reading `user.<name>` on a loaded row. -/
def readUserAttr (name : String) : Except String Unit :=
  if name ∈ userColumns then .ok () else .error ("AttributeError: " ++ name)

/-- Indexing the trial-status dictionary with `<k>`. -/
def readTrialStatusKey (k : String) : Except String Unit :=
  if k ∈ trialStatusKeys then .ok () else .error ("KeyError: " ++ k)

/-- The response of a subscription-status request: the success
dictionary (carrying the freshly computed trial status) or the
`{'error': ...}` body of the `except` clause. -/
inductive StatusResp where
  | success (trialStatus : TrialStatus)
  | failure (msg : String)
  deriving Repr, DecidableEq

/-- `get_subscription_status` (src/routes/subscription.py lines 24-51)
after successful token authentication at time `now`: it computes the
trial status, then evaluates the response dictionary's values in
source order — `user.id`, `user.subscription_plan`,
`user.subscription_status`, `user.trial_start_date`,
`user.trial_end_date`, `user.subscription_start_date`,
`user.subscription_end_date`, then `trial_status['is_active']`,
`trial_status['is_expired']`, `trial_status['days_remaining']` —
and the `except` clause maps any raised error to a 500
`{'error': f'Failed to get subscription status: ...'}` response. -/
def getSubscriptionStatus (u : UserState) (now : Int) : Nat × StatusResp :=
  let trialStatus := calculateTrialStatus u now
  let build : Except String TrialStatus := do
    readUserAttr "id"
    readUserAttr "subscription_plan"
    readUserAttr "subscription_status"
    readUserAttr "trial_start_date"
    readUserAttr "trial_end_date"
    readUserAttr "subscription_start_date"
    readUserAttr "subscription_end_date"
    readTrialStatusKey "is_active"
    readTrialStatusKey "is_expired"
    readTrialStatusKey "days_remaining"
    pure trialStatus
  match build with
  | .ok body => (200, .success body)
  | .error e => (500, .failure ("Failed to get subscription status: " ++ e))

/-- C9: for every authenticated request, `get_subscription_status`
answers 500 with an error body, never 200: the handler reads
`user.subscription_end_date`, an attribute the `User` model does not
define (and would next index the trial-status dictionary with
`'is_active'`, a key `calculate_trial_status` never produces). -/
theorem claim_C9 (u : UserState) (now : Int) :
    (getSubscriptionStatus u now).1 = 500 ∧
    (getSubscriptionStatus u now).2 =
      .failure "Failed to get subscription status: AttributeError: subscription_end_date" := by
  constructor <;> rfl

end GisoInvest
